import Mathlib

/-!
Shallow embedding of the typing-speed-test controller in `src/interface.py`
(class `AppInterface`).  The Tk text widget's per-character tag state is
embedded as a list of tags (one per character of the phrase: the handlers
always remove the other tags before adding one, so each index carries at
most one of untouched/correct/incorrect); the cursor-highlight tag is
embedded as an `Option Nat` (the index carrying it, `none` when hidden).
Key events are records of the Tk keysym and the printed character.
Scrolling and pixel geometry (`_update_scroll_position`,
`_calculate_stable_geometry`) touch no session state and are not modelled.
-/

namespace TypingTest

/-- The three per-character display tags of `_configure_text_tags`. -/
inductive Tag where
  | untouched
  | correct
  | incorrect
deriving DecidableEq, Repr

/-- A key event: Tk keysym plus the printed character (`event.char`,
possibly empty). -/
structure Event where
  keysym : String
  char : String
deriving DecidableEq, Repr

/-- The session state of `AppInterface` (the fields of
`_initialize_state_variables` that the key handlers read or write, plus
the widget tag state). -/
structure AppState where
  original_text : List Char
  current_index : Nat
  correct_chars : Nat
  total_typed_chars : Nat
  time_left : Nat
  timer_running : Bool
  tags : List Tag
  cursor_tag : Option Nat
deriving DecidableEq, Repr

/-- `TEST_DURATION = 30`. -/
def TEST_DURATION : Nat := 30

/-- `_initialize_state_variables`: fresh state at construction. -/
def initialState : AppState :=
  { original_text := []
    current_index := 0
    correct_chars := 0
    total_typed_chars := 0
    time_left := TEST_DURATION
    timer_running := false
    tags := []
    cursor_tag := none }

/-- The modifier keysyms excluded in `on_key_press`. -/
def modifierKeysyms : List String :=
  ["Shift_L", "Shift_R", "Control_L", "Control_R", "Alt_L", "Alt_R",
   "Caps_Lock", "Tab"]

/-- `_start_test`: latch the timer-running flag (the repeating
`_update_timer` callback chain is toolkit-scheduled and affects only
`time_left`, which no key handler reads). -/
def startTest (s : AppState) : AppState :=
  if s.timer_running then s else { s with timer_running := true }

/-- `_update_cursor_position`: remove the cursor tag everywhere and add it
at `current_index` when that is inside the phrase. -/
def updateCursorPosition (s : AppState) : AppState :=
  { s with cursor_tag :=
      if s.current_index < s.original_text.length then some s.current_index
      else none }

/-- `_handle_backspace`. -/
def handleBackspace (s : AppState) : AppState :=
  if s.current_index > 0 then
    { s with current_index := s.current_index - 1
             total_typed_chars :=
               if s.total_typed_chars > 0 then s.total_typed_chars - 1
               else s.total_typed_chars
             tags := s.tags.set (s.current_index - 1) Tag.untouched }
  else s

/-- The character the handler compares against: `" " if event.keysym ==
"space" else event.char`. -/
def typedChar (e : Event) : String :=
  if e.keysym = "space" then " " else e.char

/-- The comparison `typed_char == expected_char` of `_handle_character`
(the expected character is `original_text[current_index]`, a one-character
string; the caller guarantees the index is in range, so the `getD`
default is never used). -/
def charHit (e : Event) (s : AppState) : Prop :=
  typedChar e = String.mk [s.original_text.getD s.current_index ' ']

instance (e : Event) (s : AppState) : Decidable (charHit e s) :=
  inferInstanceAs (Decidable (_ = _))

/-- `_handle_character`. -/
def handleCharacter (e : Event) (s : AppState) : AppState :=
  { s with
      tags := s.tags.set s.current_index
        (if charHit e s then Tag.correct else Tag.incorrect)
      correct_chars :=
        if charHit e s then s.correct_chars + 1 else s.correct_chars
      total_typed_chars := s.total_typed_chars + 1
      current_index := s.current_index + 1 }

/-- `on_key_press`: start the timer, drop modifier keysyms, dispatch to
backspace or character handling, then recompute the cursor highlight.
(`startTest` commutes with nothing stateful here: in the source it runs
once before the dispatch; since it only sets `timer_running`, applying it
to `s` in each branch is the same state.) -/
def onKeyPress (e : Event) (s : AppState) : AppState :=
  if e.keysym ∈ modifierKeysyms then startTest s
  else updateCursorPosition
    (if e.keysym = "BackSpace" then handleBackspace (startTest s)
     else if (startTest s).current_index <
         (startTest s).original_text.length then
       handleCharacter e (startTest s)
     else startTest s)

/-- Fold a sequence of key events through `on_key_press`. -/
def runEvents (s : AppState) (es : List Event) : AppState :=
  es.foldl (fun t e => onKeyPress e t) s

/-- The fixed substitute phrase of `_setup_new_test`. -/
def errorPhrase : String := "Error: Could not load text from phrases.txt."

/-- Python's `str.strip()`: drop whitespace from both ends. -/
def pyStrip (l : List Char) : List Char :=
  ((l.dropWhile Char.isWhitespace).reverse.dropWhile Char.isWhitespace).reverse

/-- The phrase `_setup_new_test` ends up with: `contents = none` models
`FileNotFoundError` on opening `phrases.txt`, `some []` makes
`random.choice` raise `IndexError`; both are caught and yield
`errorPhrase`.  Otherwise `random.choice(phrases).strip()`, with the
random draw modelled by the index `k` reduced mod the line count. -/
def loadPhrase (contents : Option (List (List Char))) (k : Nat) :
    List Char :=
  match contents with
  | none => errorPhrase.toList
  | some [] => errorPhrase.toList
  | some (l :: ls) => pyStrip ((l :: ls).getD (k % (l :: ls).length) l)

/-- `_setup_new_test`: load a phrase, fill the widget with it all tagged
untouched, reset `current_index` to 0 and recompute the cursor highlight.
(It does not touch `correct_chars`, `total_typed_chars` or the timer
fields.) -/
def setupNewTest (contents : Option (List (List Char))) (k : Nat)
    (s : AppState) : AppState :=
  let text := loadPhrase contents k
  updateCursorPosition
    { s with original_text := text
             tags := List.replicate text.length Tag.untouched
             current_index := 0 }

/-- The WPM value `_end_test` computes:
`minutes = TEST_DURATION / 60.0; wpm = (correct_chars / 5) / minutes if
minutes > 0 else 0`, embedded over the rationals (every reachable value
is an exact multiple of 1/100, so rational and binary-float arithmetic
agree after rounding to two decimals). -/
def endTestWpm (s : AppState) : ℚ :=
  let minutes : ℚ := (TEST_DURATION : ℚ) / 60
  if minutes > 0 then ((s.correct_chars : ℚ) / 5) / minutes else 0

/-- Render a rational to two decimal places, as Python's `f"{x:.2f}"`
does for the exact-hundredth values this program produces. -/
def fmtTwoDec (q : ℚ) : String :=
  let h : Int := round (q * 100)
  let ip := h / 100
  let fr := (h % 100).toNat
  toString ip ++ "." ++ (if fr < 10 then "0" else "") ++ toString fr

/-- The WPM label text `_end_test` displays: `f"WPM: {wpm:.2f}"`. -/
def endTestWpmLabel (s : AppState) : String :=
  "WPM: " ++ fmtTwoDec (endTestWpm s)

/-- Number of BackSpace events in a key-event sequence. -/
def countBackspaces : List Event → Nat
  | [] => 0
  | e :: es => (if e.keysym = "BackSpace" then 1 else 0) + countBackspaces es

/-- The per-character render-state invariant of the spec: every index
before the cursor is tagged correct or incorrect, every index from the
cursor on is untouched, and the cursor highlight sits exactly at the
cursor when that is inside the phrase. -/
def renderInvariant (s : AppState) : Prop :=
  s.tags.length = s.original_text.length ∧
  s.current_index ≤ s.original_text.length ∧
  (∀ i, i < s.current_index → s.tags.getD i Tag.untouched ≠ Tag.untouched) ∧
  (∀ i, i < s.tags.length → s.current_index ≤ i →
    s.tags.getD i Tag.untouched = Tag.untouched) ∧
  s.cursor_tag =
    (if s.current_index < s.original_text.length then some s.current_index
     else none)

/-- A session freshly set up over the phrase "hi". -/
def demoSetup : AppState := setupNewTest (some ["hi".toList]) 0 initialState

/-- The "hi" session after typing the correct character "h". -/
def demoAfterH : AppState := runEvents demoSetup [⟨"h", "h"⟩]

/-- The "hi" session after typing both characters correctly
(cursor at the end of the phrase). -/
def demoDone : AppState := runEvents demoSetup [⟨"h", "h"⟩, ⟨"i", "i"⟩]

/-!  Helper lemmas. -/

theorem getD_set_self {α : Type} (l : List α) (i : Nat) (v d : α)
    (h : i < l.length) : (l.set i v).getD i d = v := by
  induction l generalizing i with
  | nil => simp at h
  | cons a t ih =>
    cases i with
    | zero => rfl
    | succ j => exact ih j (Nat.lt_of_succ_lt_succ h)

theorem getD_set_other {α : Type} (l : List α) (i j : Nat) (v d : α)
    (h : i ≠ j) : (l.set i v).getD j d = l.getD j d := by
  induction l generalizing i j with
  | nil => rfl
  | cons a t ih =>
    cases i with
    | zero => cases j with
      | zero => exact absurd rfl h
      | succ m => rfl
    | succ n => cases j with
      | zero => rfl
      | succ m => exact ih n m (fun hh => h (by rw [hh]))

theorem getD_replicate {α : Type} (n i : Nat) (a d : α) (h : i < n) :
    (List.replicate n a).getD i d = a := by
  induction n generalizing i with
  | zero => simp at h
  | succ m ih =>
    cases i with
    | zero => rfl
    | succ j => exact ih j (Nat.lt_of_succ_lt_succ h)

theorem startTest_fields (s : AppState) :
    (startTest s).original_text = s.original_text ∧
    (startTest s).current_index = s.current_index ∧
    (startTest s).correct_chars = s.correct_chars ∧
    (startTest s).total_typed_chars = s.total_typed_chars ∧
    (startTest s).tags = s.tags ∧
    (startTest s).cursor_tag = s.cursor_tag ∧
    (startTest s).timer_running = true := by
  unfold startTest
  split <;> simp_all

theorem setupNewTest_fields (contents : Option (List (List Char))) (k : Nat)
    (s : AppState) :
    (setupNewTest contents k s).original_text = loadPhrase contents k ∧
    (setupNewTest contents k s).current_index = 0 ∧
    (setupNewTest contents k s).correct_chars = s.correct_chars ∧
    (setupNewTest contents k s).total_typed_chars = s.total_typed_chars ∧
    (setupNewTest contents k s).tags =
      List.replicate (loadPhrase contents k).length Tag.untouched ∧
    (setupNewTest contents k s).cursor_tag =
      (if 0 < (loadPhrase contents k).length then some 0 else none) := by
  simp [setupNewTest, updateCursorPosition]

theorem onKeyPress_counter_step (e : Event) (s : AppState) :
    (onKeyPress e s).correct_chars + s.total_typed_chars ≤
      s.correct_chars + (onKeyPress e s).total_typed_chars +
        (if e.keysym = "BackSpace" then 1 else 0) := by
  obtain ⟨h1, h2, h3, h4, h5, h6, h7⟩ := startTest_fields s
  unfold onKeyPress updateCursorPosition handleBackspace handleCharacter
  split_ifs <;> simp_all <;> omega

theorem runEvents_counter_bound (es : List Event) : ∀ (s : AppState) (k : Nat),
    s.correct_chars ≤ s.total_typed_chars + k →
    (runEvents s es).correct_chars ≤
      (runEvents s es).total_typed_chars + k + countBackspaces es := by
  induction es with
  | nil => intro s k h; simpa [runEvents, countBackspaces] using h
  | cons e es ih =>
    intro s k h
    have hstep := onKeyPress_counter_step e s
    have hrun : runEvents s (e :: es) = runEvents (onKeyPress e s) es := rfl
    rw [hrun]
    by_cases hb : e.keysym = "BackSpace"
    · simp only [countBackspaces, hb, if_true, eq_self_iff_true] at hstep ⊢
      have h2 := ih (onKeyPress e s) (k + 1) (by omega)
      omega
    · simp only [countBackspaces, hb, if_false, ite_false] at hstep ⊢
      have h2 := ih (onKeyPress e s) k (by omega)
      omega

/-!  Claim C1. -/

/-- C1 counterexample: the claimed invariant `correct_chars ≤
total_typed_chars` fails.  In the session over the phrase "hi", typing
the correct character "h" and then backspacing leaves `correct_chars =
1` and `total_typed_chars = 0` (backspace decrements the total but never
the correct count). -/
theorem c1_invariant_fails :
    ¬ ((runEvents (setupNewTest (some ["hi".toList]) 0 initialState)
        [⟨"h", "h"⟩, ⟨"BackSpace", ""⟩]).correct_chars ≤
       (runEvents (setupNewTest (some ["hi".toList]) 0 initialState)
        [⟨"h", "h"⟩, ⟨"BackSpace", ""⟩]).total_typed_chars) := by decide

/-- C1 amended: for every session and every sequence of key events
processed by `on_key_press`, `correct_chars ≤ total_typed_chars + b`
where `b` is the number of BackSpace events processed (each backspace
can lower `total_typed_chars` while `correct_chars` stays); without
backspaces (`b = 0`) the original bound holds. -/
theorem c1_invariant_amended (contents : Option (List (List Char)))
    (k : Nat) (es : List Event) :
    (runEvents (setupNewTest contents k initialState) es).correct_chars ≤
      (runEvents (setupNewTest contents k initialState) es).total_typed_chars +
        countBackspaces es := by
  obtain ⟨-, -, h3, h4, -, -⟩ := setupNewTest_fields contents k initialState
  have h0 : (setupNewTest contents k initialState).correct_chars ≤
      (setupNewTest contents k initialState).total_typed_chars + 0 := by
    rw [h3, h4]; rfl
  simpa using runEvents_counter_bound es _ 0 h0

/-!  Componentwise characterizations of `onKeyPress`, one per dispatch
branch of the source's `on_key_press`. -/

theorem onKeyPress_modifier_state (e : Event) (s : AppState)
    (hm : e.keysym ∈ modifierKeysyms) :
    (onKeyPress e s).original_text = s.original_text ∧
    (onKeyPress e s).current_index = s.current_index ∧
    (onKeyPress e s).correct_chars = s.correct_chars ∧
    (onKeyPress e s).total_typed_chars = s.total_typed_chars ∧
    (onKeyPress e s).tags = s.tags ∧
    (onKeyPress e s).cursor_tag = s.cursor_tag ∧
    (onKeyPress e s).timer_running = true := by
  obtain ⟨h1, h2, h3, h4, h5, h6, h7⟩ := startTest_fields s
  unfold onKeyPress
  rw [if_pos hm]
  exact ⟨h1, h2, h3, h4, h5, h6, h7⟩

theorem onKeyPress_backspace_pos_state (e : Event) (s : AppState)
    (hk : e.keysym = "BackSpace") (hc : 0 < s.current_index) :
    (onKeyPress e s).original_text = s.original_text ∧
    (onKeyPress e s).current_index = s.current_index - 1 ∧
    (onKeyPress e s).correct_chars = s.correct_chars ∧
    (onKeyPress e s).total_typed_chars =
      (if 0 < s.total_typed_chars then s.total_typed_chars - 1
       else s.total_typed_chars) ∧
    (onKeyPress e s).tags = s.tags.set (s.current_index - 1) Tag.untouched ∧
    (onKeyPress e s).cursor_tag =
      (if s.current_index - 1 < s.original_text.length then
        some (s.current_index - 1) else none) := by
  have hm : e.keysym ∉ modifierKeysyms := by rw [hk]; decide
  obtain ⟨h1, h2, h3, h4, h5, h6, h7⟩ := startTest_fields s
  unfold onKeyPress
  rw [if_neg hm, if_pos hk]
  unfold handleBackspace updateCursorPosition
  rw [h2, if_pos hc]
  simp_all

theorem onKeyPress_backspace_zero_state (e : Event) (s : AppState)
    (hk : e.keysym = "BackSpace") (hc : s.current_index = 0) :
    (onKeyPress e s).original_text = s.original_text ∧
    (onKeyPress e s).current_index = s.current_index ∧
    (onKeyPress e s).correct_chars = s.correct_chars ∧
    (onKeyPress e s).total_typed_chars = s.total_typed_chars ∧
    (onKeyPress e s).tags = s.tags ∧
    (onKeyPress e s).cursor_tag =
      (if s.current_index < s.original_text.length then
        some s.current_index else none) := by
  have hm : e.keysym ∉ modifierKeysyms := by rw [hk]; decide
  obtain ⟨h1, h2, h3, h4, h5, h6, h7⟩ := startTest_fields s
  unfold onKeyPress
  rw [if_neg hm, if_pos hk]
  unfold handleBackspace updateCursorPosition
  rw [h2, if_neg (by omega)]
  simp_all

theorem onKeyPress_char_state (e : Event) (s : AppState)
    (hm : e.keysym ∉ modifierKeysyms)
    (hb : e.keysym ≠ "BackSpace")
    (hlt : s.current_index < s.original_text.length) :
    (onKeyPress e s).original_text = s.original_text ∧
    (onKeyPress e s).current_index = s.current_index + 1 ∧
    (onKeyPress e s).correct_chars =
      (if charHit e s then s.correct_chars + 1 else s.correct_chars) ∧
    (onKeyPress e s).total_typed_chars = s.total_typed_chars + 1 ∧
    (onKeyPress e s).tags = s.tags.set s.current_index
      (if charHit e s then Tag.correct else Tag.incorrect) ∧
    (onKeyPress e s).cursor_tag =
      (if s.current_index + 1 < s.original_text.length then
        some (s.current_index + 1) else none) := by
  obtain ⟨h1, h2, h3, h4, h5, h6, h7⟩ := startTest_fields s
  have hch : charHit e (startTest s) = charHit e s := by
    unfold charHit; rw [h1, h2]
  unfold onKeyPress
  rw [if_neg hm, if_neg hb, if_pos (by rw [h1, h2]; exact hlt)]
  unfold handleCharacter updateCursorPosition
  simp_all

theorem onKeyPress_pastEnd_state (e : Event) (s : AppState)
    (hm : e.keysym ∉ modifierKeysyms)
    (hb : e.keysym ≠ "BackSpace")
    (hge : s.original_text.length ≤ s.current_index) :
    (onKeyPress e s).original_text = s.original_text ∧
    (onKeyPress e s).current_index = s.current_index ∧
    (onKeyPress e s).correct_chars = s.correct_chars ∧
    (onKeyPress e s).total_typed_chars = s.total_typed_chars ∧
    (onKeyPress e s).tags = s.tags ∧
    (onKeyPress e s).cursor_tag = none := by
  obtain ⟨h1, h2, h3, h4, h5, h6, h7⟩ := startTest_fields s
  unfold onKeyPress
  rw [if_neg hm, if_neg hb, if_neg (by rw [h1, h2]; omega)]
  unfold updateCursorPosition
  simp_all [Nat.not_lt]

/-!  Claims C2, C6, C7. -/

/-- C2: a BackSpace key press decrements the cursor by one exactly when
the cursor is positive, in that case also decrements
`total_typed_chars` exactly when it is positive, never changes
`correct_chars`, and resets the tag at the vacated index to untouched;
with the cursor at 0 it changes nothing. -/
theorem c2_backspace_effect (e : Event) (s : AppState)
    (hk : e.keysym = "BackSpace") :
    (onKeyPress e s).correct_chars = s.correct_chars ∧
    (0 < s.current_index →
      (onKeyPress e s).current_index = s.current_index - 1 ∧
      (0 < s.total_typed_chars →
        (onKeyPress e s).total_typed_chars = s.total_typed_chars - 1) ∧
      (s.total_typed_chars = 0 →
        (onKeyPress e s).total_typed_chars = 0) ∧
      (s.current_index - 1 < s.tags.length →
        (onKeyPress e s).tags.getD (s.current_index - 1) Tag.untouched =
          Tag.untouched)) ∧
    (s.current_index = 0 →
      (onKeyPress e s).current_index = 0 ∧
      (onKeyPress e s).total_typed_chars = s.total_typed_chars ∧
      (onKeyPress e s).tags = s.tags) := by
  have hm : e.keysym ∉ modifierKeysyms := by rw [hk]; decide
  obtain ⟨h1, h2, h3, h4, h5, h6, h7⟩ := startTest_fields s
  unfold onKeyPress
  rw [if_neg hm, if_pos hk]
  unfold handleBackspace updateCursorPosition
  by_cases hc : 0 < s.current_index
  · rw [h2, if_pos hc]
    by_cases ht : 0 < s.total_typed_chars
    · rw [h4, if_pos ht]
      simp_all [getD_set_self]
      omega
    · rw [h4, if_neg ht]
      simp_all [getD_set_self]
      all_goals omega
  · rw [h2, if_neg hc]
    simp_all
    all_goals omega

/-- C6: a key press with a modifier keysym (Shift, Control, Alt,
Caps-Lock, Tab) leaves the cursor, both counters and all character tags
unchanged, but runs the start-timer check first, so the timer is running
afterwards. -/
theorem c6_modifier_noop (e : Event) (s : AppState)
    (hm : e.keysym ∈ modifierKeysyms) :
    (onKeyPress e s).current_index = s.current_index ∧
    (onKeyPress e s).correct_chars = s.correct_chars ∧
    (onKeyPress e s).total_typed_chars = s.total_typed_chars ∧
    (onKeyPress e s).tags = s.tags ∧
    (onKeyPress e s).cursor_tag = s.cursor_tag ∧
    (onKeyPress e s).timer_running = true := by
  obtain ⟨h1, h2, h3, h4, h5, h6, h7⟩ := startTest_fields s
  unfold onKeyPress
  rw [if_pos hm]
  exact ⟨h2, h3, h4, h5, h6, h7⟩

/-- C7: with the cursor at the end of the phrase, a non-modifier,
non-backspace key press is ignored: cursor, counters and tags are
unchanged. -/
theorem c7_complete_ignores_chars (e : Event) (s : AppState)
    (hm : e.keysym ∉ modifierKeysyms)
    (hb : e.keysym ≠ "BackSpace")
    (hend : s.current_index = s.original_text.length) :
    (onKeyPress e s).current_index = s.current_index ∧
    (onKeyPress e s).correct_chars = s.correct_chars ∧
    (onKeyPress e s).total_typed_chars = s.total_typed_chars ∧
    (onKeyPress e s).tags = s.tags := by
  obtain ⟨h1, h2, h3, h4, h5, h6, h7⟩ := startTest_fields s
  unfold onKeyPress
  rw [if_neg hm, if_neg hb, if_neg (by rw [h1, h2, hend]; omega)]
  unfold updateCursorPosition
  exact ⟨h2, h3, h4, h5⟩

/-!  Claims C5, C10. -/

/-- C5: with the cursor inside the phrase, a printable-character key
press (space keysym standing for a literal space) compares the typed
character with the phrase character at the cursor: a match tags the
index correct and increments `correct_chars`, a mismatch tags it
incorrect and leaves `correct_chars`; either way `total_typed_chars`
and the cursor each advance by one. -/
theorem c5_character_effect (e : Event) (s : AppState)
    (hm : e.keysym ∉ modifierKeysyms)
    (hb : e.keysym ≠ "BackSpace")
    (hlt : s.current_index < s.original_text.length)
    (htag : s.current_index < s.tags.length) :
    (onKeyPress e s).total_typed_chars = s.total_typed_chars + 1 ∧
    (onKeyPress e s).current_index = s.current_index + 1 ∧
    (charHit e s →
      (onKeyPress e s).correct_chars = s.correct_chars + 1 ∧
      (onKeyPress e s).tags.getD s.current_index Tag.untouched =
        Tag.correct) ∧
    (¬ charHit e s →
      (onKeyPress e s).correct_chars = s.correct_chars ∧
      (onKeyPress e s).tags.getD s.current_index Tag.untouched =
        Tag.incorrect) := by
  obtain ⟨-, hidx, hcorr, htot, htags, -⟩ := onKeyPress_char_state e s hm hb hlt
  refine ⟨htot, hidx, ?_, ?_⟩
  · intro hhit
    exact ⟨by rw [hcorr, if_pos hhit],
      by rw [htags, if_pos hhit]; exact getD_set_self _ _ _ _ htag⟩
  · intro hmiss
    exact ⟨by rw [hcorr, if_neg hmiss],
      by rw [htags, if_neg hmiss]; exact getD_set_self _ _ _ _ htag⟩

/-- C10: a key press with an empty printed character (arrow keys,
Escape, function keys) that is not a modifier, BackSpace or space is
handled as a mismatching character: the cursor index is tagged
incorrect, `total_typed_chars` and the cursor advance,
`correct_chars` stays. -/
theorem c10_empty_char_mismatch (e : Event) (s : AppState)
    (hm : e.keysym ∉ modifierKeysyms)
    (hb : e.keysym ≠ "BackSpace")
    (hsp : e.keysym ≠ "space")
    (hch : e.char = "")
    (hlt : s.current_index < s.original_text.length)
    (htag : s.current_index < s.tags.length) :
    (onKeyPress e s).tags.getD s.current_index Tag.untouched =
      Tag.incorrect ∧
    (onKeyPress e s).total_typed_chars = s.total_typed_chars + 1 ∧
    (onKeyPress e s).correct_chars = s.correct_chars ∧
    (onKeyPress e s).current_index = s.current_index + 1 := by
  have hnot : ¬ charHit e s := by
    unfold charHit typedChar
    rw [if_neg hsp, hch]
    intro hx
    have hd := congrArg String.data hx
    simp at hd
  obtain ⟨-, hidx, hcorr, htot, htags, -⟩ := onKeyPress_char_state e s hm hb hlt
  exact ⟨by rw [htags, if_neg hnot]; exact getD_set_self _ _ _ _ htag,
    htot, by rw [hcorr, if_neg hnot], hidx⟩

/-!  Claim C9 machinery. -/

theorem renderInvariant_step (e : Event) (s : AppState)
    (h : renderInvariant s) : renderInvariant (onKeyPress e s) := by
  obtain ⟨hlen, hle, hbefore, hafter, hcur⟩ := h
  by_cases hm : e.keysym ∈ modifierKeysyms
  · obtain ⟨g1, g2, g3, g4, g5, g6, g7⟩ := onKeyPress_modifier_state e s hm
    refine ⟨by rw [g5, g1, hlen], by rw [g2, g1]; exact hle, ?_, ?_, ?_⟩
    · intro i hi
      rw [g5]
      exact hbefore i (by rwa [g2] at hi)
    · intro i hilen hige
      rw [g5] at hilen ⊢
      exact hafter i hilen (by rwa [g2] at hige)
    · rw [g6, g2, g1]
      exact hcur
  · by_cases hbk : e.keysym = "BackSpace"
    · by_cases hc : 0 < s.current_index
      · obtain ⟨g1, g2, g3, g4, g5, g6⟩ :=
          onKeyPress_backspace_pos_state e s hbk hc
        refine ⟨by rw [g5, List.length_set, g1, hlen],
          by rw [g2, g1]; omega, ?_, ?_, ?_⟩
        · intro i hi
          rw [g2] at hi
          rw [g5, getD_set_other _ _ _ _ _ (by omega)]
          exact hbefore i (by omega)
        · intro i hilen hige
          rw [g5, List.length_set] at hilen
          rw [g2] at hige
          rw [g5]
          by_cases hieq : i = s.current_index - 1
          · rw [hieq]
            exact getD_set_self _ _ _ _ (by omega)
          · rw [getD_set_other _ _ _ _ _ (fun hh => hieq hh.symm)]
            exact hafter i hilen (by omega)
        · rw [g6, g2, g1]
      · have hc0 : s.current_index = 0 := by omega
        obtain ⟨g1, g2, g3, g4, g5, g6⟩ :=
          onKeyPress_backspace_zero_state e s hbk hc0
        refine ⟨by rw [g5, g1, hlen], by rw [g2, g1]; exact hle, ?_, ?_, ?_⟩
        · intro i hi
          rw [g5]
          exact hbefore i (by rwa [g2] at hi)
        · intro i hilen hige
          rw [g5] at hilen ⊢
          exact hafter i hilen (by rwa [g2] at hige)
        · rw [g6, g2, g1]
    · by_cases hlt : s.current_index < s.original_text.length
      · obtain ⟨g1, g2, g3, g4, g5, g6⟩ :=
          onKeyPress_char_state e s hm hbk hlt
        refine ⟨by rw [g5, List.length_set, g1, hlen],
          by rw [g2, g1]; omega, ?_, ?_, ?_⟩
        · intro i hi
          rw [g2] at hi
          rw [g5]
          by_cases hieq : i = s.current_index
          · rw [hieq, getD_set_self _ _ _ _ (by omega)]
            by_cases hhit : charHit e s
            · rw [if_pos hhit]
              exact fun hx => Tag.noConfusion hx
            · rw [if_neg hhit]
              exact fun hx => Tag.noConfusion hx
          · rw [getD_set_other _ _ _ _ _ (fun hh => hieq hh.symm)]
            exact hbefore i (by omega)
        · intro i hilen hige
          rw [g5, List.length_set] at hilen
          rw [g2] at hige
          rw [g5, getD_set_other _ _ _ _ _ (by omega)]
          exact hafter i hilen (by omega)
        · rw [g6, g2, g1]
      · obtain ⟨g1, g2, g3, g4, g5, g6⟩ :=
          onKeyPress_pastEnd_state e s hm hbk (by omega)
        refine ⟨by rw [g5, g1, hlen], by rw [g2, g1]; exact hle, ?_, ?_, ?_⟩
        · intro i hi
          rw [g5]
          exact hbefore i (by rwa [g2] at hi)
        · intro i hilen hige
          rw [g5] at hilen ⊢
          exact hafter i hilen (by rwa [g2] at hige)
        · rw [g6, g2, g1]
          exact (if_neg (by omega)).symm

theorem runEvents_invariant (es : List Event) : ∀ s : AppState,
    renderInvariant s → renderInvariant (runEvents s es) := by
  induction es with
  | nil => intro s h; exact h
  | cons e es ih =>
    intro s h
    exact ih (onKeyPress e s) (renderInvariant_step e s h)

theorem setupNewTest_invariant (contents : Option (List (List Char)))
    (k : Nat) (s : AppState) :
    renderInvariant (setupNewTest contents k s) := by
  obtain ⟨h1, h2, h3, h4, h5, h6⟩ := setupNewTest_fields contents k s
  refine ⟨by rw [h5, h1, List.length_replicate], by rw [h2]; omega,
    ?_, ?_, ?_⟩
  · intro i hi
    rw [h2] at hi
    omega
  · intro i hilen hige
    rw [h5, List.length_replicate] at hilen
    rw [h5]
    exact getD_replicate _ _ _ _ hilen
  · rw [h6, h2, h1]

/-!  Claims C3, C4, C8, C9. -/

/-- C3 counterexample: `_setup_new_test` does not reset the session
counters.  Starting it from a state with `correct_chars = 5` and
`total_typed_chars = 7` leaves both counters as they were, so the claimed
full reset fails. -/
theorem c3_reset_fails :
    ¬ ((setupNewTest (some ["hi".toList]) 0
        { original_text := ['h', 'i'], current_index := 2,
          correct_chars := 5, total_typed_chars := 7, time_left := 30,
          timer_running := true, tags := [Tag.correct, Tag.incorrect],
          cursor_tag := none }).current_index = 0 ∧
       (setupNewTest (some ["hi".toList]) 0
        { original_text := ['h', 'i'], current_index := 2,
          correct_chars := 5, total_typed_chars := 7, time_left := 30,
          timer_running := true, tags := [Tag.correct, Tag.incorrect],
          cursor_tag := none }).correct_chars = 0 ∧
       (setupNewTest (some ["hi".toList]) 0
        { original_text := ['h', 'i'], current_index := 2,
          correct_chars := 5, total_typed_chars := 7, time_left := 30,
          timer_running := true, tags := [Tag.correct, Tag.incorrect],
          cursor_tag := none }).total_typed_chars = 0) := by decide

/-- C3 amended: for every prior state, `_setup_new_test` resets the
cursor to 0, marks every character untouched, and places the cursor
highlight at index 0 (when the loaded phrase is nonempty); it leaves
`correct_chars` and `total_typed_chars` unchanged (they are zeroed only
by `_initialize_state_variables` at construction). -/
theorem c3_reset_amended (contents : Option (List (List Char))) (k : Nat)
    (s : AppState) :
    (setupNewTest contents k s).current_index = 0 ∧
    (setupNewTest contents k s).correct_chars = s.correct_chars ∧
    (setupNewTest contents k s).total_typed_chars = s.total_typed_chars ∧
    (setupNewTest contents k s).tags =
      List.replicate (setupNewTest contents k s).original_text.length
        Tag.untouched ∧
    (setupNewTest contents k s).cursor_tag =
      (if 0 < (setupNewTest contents k s).original_text.length then some 0
       else none) := by
  obtain ⟨h1, h2, h3, h4, h5, h6⟩ := setupNewTest_fields contents k s
  exact ⟨h2, h3, h4, by rw [h5, h1], by rw [h6, h1]⟩

/-- C4: for every state, the WPM value at timer expiry is
`(correct_chars / 5) / (TEST_DURATION / 60)` with the fixed 30-second
duration, and in particular with `correct_chars = 25` the label renders
as "WPM: 10.00". -/
theorem c4_wpm_display (s : AppState) :
    endTestWpm s =
      ((s.correct_chars : ℚ) / 5) / (((TEST_DURATION : Nat) : ℚ) / 60) ∧
    (s.correct_chars = 25 → endTestWpmLabel s = "WPM: 10.00") := by
  constructor
  · simp only [endTestWpm, TEST_DURATION]
    norm_num
  · intro hc
    have hwpm : endTestWpm s = 10 := by
      simp only [endTestWpm, TEST_DURATION, hc]
      norm_num
    unfold endTestWpmLabel
    rw [hwpm]
    have h : round ((10 : ℚ) * 100) = (1000 : ℤ) := by norm_num
    simp only [fmtTwoDec, h]
    rfl

/-- C4 witness: the theorem at a concrete state with 25 correct
characters, the inner hypothesis discharged there. -/
theorem c4_wpm_display_witness :
    endTestWpm { initialState with correct_chars := 25 } =
      ((25 : ℚ) / 5) / (((TEST_DURATION : Nat) : ℚ) / 60) ∧
    endTestWpmLabel { initialState with correct_chars := 25 } =
      "WPM: 10.00" :=
  ⟨(c4_wpm_display { initialState with correct_chars := 25 }).1,
   (c4_wpm_display { initialState with correct_chars := 25 }).2 rfl⟩

/-- C8: when the phrase file is missing (`none`) or empty (`some []`),
`_setup_new_test` substitutes the fixed placeholder phrase and still
sets up the session over it (all characters untouched, cursor at 0), so
nothing is raised. -/
theorem c8_load_failure (contents : Option (List (List Char))) (k : Nat)
    (s : AppState) (h : contents = none ∨ contents = some []) :
    (setupNewTest contents k s).original_text = errorPhrase.toList ∧
    (setupNewTest contents k s).current_index = 0 ∧
    (setupNewTest contents k s).tags =
      List.replicate errorPhrase.toList.length Tag.untouched := by
  obtain ⟨h1, h2, -, -, h5, -⟩ := setupNewTest_fields contents k s
  have hl : loadPhrase contents k = errorPhrase.toList := by
    rcases h with h | h <;> rw [h] <;> rfl
  exact ⟨by rw [h1, hl], h2, by rw [h5, hl]⟩

/-- C8 witness: the theorem at the missing-file input. -/
theorem c8_load_failure_witness :
    (setupNewTest none 0 initialState).original_text = errorPhrase.toList ∧
    (setupNewTest none 0 initialState).current_index = 0 ∧
    (setupNewTest none 0 initialState).tags =
      List.replicate errorPhrase.toList.length Tag.untouched :=
  c8_load_failure none 0 initialState (Or.inl rfl)

/-- C9: after any sequence of key events in a session set up by
`_setup_new_test`, every index before the cursor is tagged correct or
incorrect (never untouched), every index from the cursor on is
untouched, and the cursor highlight sits exactly at the cursor index
when that is inside the phrase (hidden otherwise). -/
theorem c9_render_invariant (contents : Option (List (List Char)))
    (k : Nat) (s : AppState) (es : List Event) :
    renderInvariant (runEvents (setupNewTest contents k s) es) :=
  runEvents_invariant es (setupNewTest contents k s)
    (setupNewTest_invariant contents k s)

/-!  Witnesses. -/

/-- C2 witness: backspace immediately after the correct keystroke "h" in
the "hi" session keeps `correct_chars`, moves the cursor back, lowers
the total and restores the untouched tag. -/
theorem c2_backspace_effect_witness :
    (onKeyPress ⟨"BackSpace", ""⟩ demoAfterH).correct_chars =
      demoAfterH.correct_chars ∧
    (onKeyPress ⟨"BackSpace", ""⟩ demoAfterH).current_index =
      demoAfterH.current_index - 1 ∧
    (onKeyPress ⟨"BackSpace", ""⟩ demoAfterH).total_typed_chars =
      demoAfterH.total_typed_chars - 1 ∧
    (onKeyPress ⟨"BackSpace", ""⟩ demoAfterH).tags.getD
      (demoAfterH.current_index - 1) Tag.untouched = Tag.untouched := by
  obtain ⟨hcc, hpos, -⟩ := c2_backspace_effect ⟨"BackSpace", ""⟩ demoAfterH rfl
  obtain ⟨ha, hb, -, hd⟩ := hpos (by decide)
  exact ⟨hcc, ha, hb (by decide), hd (by decide)⟩

/-- C5 witness: typing the matching character "h" at the start of the
"hi" session increments both counters, tags index 0 correct and
advances the cursor. -/
theorem c5_character_effect_witness :
    (onKeyPress ⟨"h", "h"⟩ demoSetup).total_typed_chars =
      demoSetup.total_typed_chars + 1 ∧
    (onKeyPress ⟨"h", "h"⟩ demoSetup).current_index =
      demoSetup.current_index + 1 ∧
    (onKeyPress ⟨"h", "h"⟩ demoSetup).correct_chars =
      demoSetup.correct_chars + 1 ∧
    (onKeyPress ⟨"h", "h"⟩ demoSetup).tags.getD demoSetup.current_index
      Tag.untouched = Tag.correct := by
  obtain ⟨ht, hi, hyes, -⟩ := c5_character_effect ⟨"h", "h"⟩ demoSetup
    (by decide) (by decide) (by decide) (by decide)
  obtain ⟨hc, htag⟩ := hyes (by decide)
  exact ⟨ht, hi, hc, htag⟩

/-- C6 witness: a Shift key press in the fresh "hi" session changes no
session counter, cursor or tag, yet starts the timer. -/
theorem c6_modifier_noop_witness :
    (onKeyPress ⟨"Shift_L", ""⟩ demoSetup).current_index =
      demoSetup.current_index ∧
    (onKeyPress ⟨"Shift_L", ""⟩ demoSetup).correct_chars =
      demoSetup.correct_chars ∧
    (onKeyPress ⟨"Shift_L", ""⟩ demoSetup).total_typed_chars =
      demoSetup.total_typed_chars ∧
    (onKeyPress ⟨"Shift_L", ""⟩ demoSetup).tags = demoSetup.tags ∧
    (onKeyPress ⟨"Shift_L", ""⟩ demoSetup).cursor_tag =
      demoSetup.cursor_tag ∧
    (onKeyPress ⟨"Shift_L", ""⟩ demoSetup).timer_running = true :=
  c6_modifier_noop ⟨"Shift_L", ""⟩ demoSetup (by decide)

/-- C7 witness: with the "hi" session fully typed (cursor at the end), a
further printable key press changes nothing. -/
theorem c7_complete_ignores_chars_witness :
    (onKeyPress ⟨"x", "x"⟩ demoDone).current_index =
      demoDone.current_index ∧
    (onKeyPress ⟨"x", "x"⟩ demoDone).correct_chars =
      demoDone.correct_chars ∧
    (onKeyPress ⟨"x", "x"⟩ demoDone).total_typed_chars =
      demoDone.total_typed_chars ∧
    (onKeyPress ⟨"x", "x"⟩ demoDone).tags = demoDone.tags :=
  c7_complete_ignores_chars ⟨"x", "x"⟩ demoDone (by decide) (by decide)
    (by decide)

/-- C10 witness: an Escape key press (empty `event.char`) in the fresh
"hi" session is scored as a mismatch at index 0. -/
theorem c10_empty_char_mismatch_witness :
    (onKeyPress ⟨"Escape", ""⟩ demoSetup).tags.getD
      demoSetup.current_index Tag.untouched = Tag.incorrect ∧
    (onKeyPress ⟨"Escape", ""⟩ demoSetup).total_typed_chars =
      demoSetup.total_typed_chars + 1 ∧
    (onKeyPress ⟨"Escape", ""⟩ demoSetup).correct_chars =
      demoSetup.correct_chars ∧
    (onKeyPress ⟨"Escape", ""⟩ demoSetup).current_index =
      demoSetup.current_index + 1 :=
  c10_empty_char_mismatch ⟨"Escape", ""⟩ demoSetup (by decide) (by decide)
    (by decide) (by decide) (by decide) (by decide)

end TypingTest
